import Mathlib

/-!
Verification development for the SSH tunnel program in src/app.py.

The program is a port-forwarding proxy built on an SSH client library.  The parts
relevant to the claims are embedded shallowly below, translated function by
function from the source:

* `load_configuration` embeds `SSHTunnel._load_configuration` (src/app.py:54-119):
  default values, a config-file overlay, environment-variable overrides with
  Python `int()` conversion, and the final port-range validation.
* `stop` embeds `SSHTunnel.stop` (src/app.py:161-174) and `start` embeds
  `SSHTunnel.start` (src/app.py:128-159), as explicit state transformers over a
  session state; the external calls that can raise are driven by environment flags.
* `forward_tunnel` embeds the acceptor loop `SSHTunnel._forward_tunnel`
  (src/app.py:176-190) as a function of a finite trace of per-iteration events.
* `handle_connection` embeds the per-connection relay
  `SSHTunnel._handle_connection` (src/app.py:192-219): the `select`-driven pump
  loop, the destination-socket timeout, and the teardown performed by the
  `finally:` block and the `create_socket` context manager (src/app.py:34-41).

Nondeterminism of the outside world (what `recv` returns, how many bytes `send`
accepts, which calls raise) is resolved by explicit event traces and environment
records, so every definition is executable and every run is a concrete value.
-/

namespace TunnelApp

/-! ### Configuration (src/app.py:54-119) -/

/-- The resolved configuration dictionary.  Python integers are unbounded, so the
numeric fields are `Int` (an environment variable such as `"-5"` converts to a
negative value with no range restriction before validation). -/
structure TunnelConfig where
  ssh_host : String
  ssh_port : Int
  ssh_user : String
  ssh_password : String
  local_port : Int
  remote_host : String
  remote_port : Int
  timeout : Int
  deriving Repr, DecidableEq

/-- The `default_config` dictionary built at src/app.py:62-71, parameterised by
the public IP obtained from `get_public_ip()`. -/
def default_config (server_ip : String) : TunnelConfig :=
  { ssh_host := server_ip
    ssh_port := 22
    ssh_user := "ubuntu"
    ssh_password := "password"
    local_port := 8080
    remote_host := "127.0.0.1"
    remote_port := 80
    timeout := 30 }

/-- The portion of the parsed config file selected by `config_env`
(src/app.py:80-81): `config.update(file_config[config_env])` overwrites exactly
the keys present in that section. -/
structure FileOverrides where
  ssh_host : Option String := none
  ssh_port : Option Int := none
  ssh_user : Option String := none
  ssh_password : Option String := none
  local_port : Option Int := none
  remote_host : Option String := none
  remote_port : Option Int := none
  timeout : Option Int := none
  deriving Repr, DecidableEq

/-- Outcome of the config-file stage (src/app.py:74-83): the file may be absent,
may fail to open or parse (the `except` branch logs a warning and keeps the
defaults), or may parse with or without a section for `config_env`. -/
inductive FileLoad where
  | absent : FileLoad
  | parseError : FileLoad
  | parsed (sectionForEnv : Option FileOverrides) : FileLoad
  deriving Repr, DecidableEq

/-- Apply `config.update(file_config[config_env])` (src/app.py:81). -/
def updateFromFile (c : TunnelConfig) (o : FileOverrides) : TunnelConfig :=
  { ssh_host := o.ssh_host.getD c.ssh_host
    ssh_port := o.ssh_port.getD c.ssh_port
    ssh_user := o.ssh_user.getD c.ssh_user
    ssh_password := o.ssh_password.getD c.ssh_password
    local_port := o.local_port.getD c.local_port
    remote_host := o.remote_host.getD c.remote_host
    remote_port := o.remote_port.getD c.remote_port
    timeout := o.timeout.getD c.timeout }

/-- The environment variables read at src/app.py:86-98; `none` models an unset
variable.  Note that src/app.py:99 tests `if env_value:`, so an empty string is
treated like an unset variable. -/
structure EnvVars where
  SSH_HOST : Option String := none
  SSH_PORT : Option String := none
  SSH_USER : Option String := none
  SSH_PASSWORD : Option String := none
  LOCAL_PORT : Option String := none
  REMOTE_HOST : Option String := none
  REMOTE_PORT : Option String := none
  TUNNEL_TIMEOUT : Option String := none
  deriving Repr, DecidableEq

/-- Digits-to-number accumulator for `pyParseInt`. -/
def pyDigitsToNat (cs : List Char) : Nat :=
  cs.foldl (fun a c => a * 10 + (c.toNat - 48)) 0

/-- Model of Python's `int(str)` as used at src/app.py:103: surrounding
whitespace is ignored, an optional single sign is allowed, and the rest must be
a nonempty digit string; anything else raises `ValueError`, modelled as `none`. -/
def pyParseInt (s : String) : Option Int :=
  let cs := ((s.data.dropWhile Char.isWhitespace).reverse.dropWhile Char.isWhitespace).reverse
  match cs with
  | [] => none
  | c :: rest =>
    if c = '-' then
      if rest ≠ [] ∧ rest.all Char.isDigit then some (-(pyDigitsToNat rest : Int)) else none
    else if c = '+' then
      if rest ≠ [] ∧ rest.all Char.isDigit then some ((pyDigitsToNat rest : Int)) else none
    else
      if (c :: rest).all Char.isDigit then some ((pyDigitsToNat (c :: rest) : Int)) else none

/-- Environment override for a string-valued key (src/app.py:97-105): a set,
nonempty variable replaces the current value; this branch cannot raise. -/
def applyEnvStr (v : Option String) (cur : String) : String :=
  match v with
  | some s => if s = "" then cur else s
  | none => cur

/-- Environment override for an int-valued key (src/app.py:97-107): a set,
nonempty variable is passed through `int(...)`; on `ValueError` the error is
logged and the current value kept. -/
def applyEnvInt (v : Option String) (cur : Int) : Int :=
  match v with
  | some s =>
    if s = "" then cur
    else
      match pyParseInt s with
      | some n => n
      | none => cur
  | none => cur

/-- The exception type raised by the program (src/app.py:20-22); the payload is
the message string. -/
inductive SSHTunnelException where
  | msg (m : String) : SSHTunnelException
  deriving Repr, DecidableEq

/-- Embedding of `SSHTunnel._load_configuration` (src/app.py:54-119).
`server_ip` is the result of `get_public_ip()` (`none` models its failure),
`file` the outcome of the config-file stage, `env` the process environment.
The function mirrors the source stage by stage: defaults, file overlay,
environment overrides, then validation of the three port fields. -/
def load_configuration (server_ip : Option String) (file : FileLoad) (env : EnvVars) :
    Except SSHTunnelException TunnelConfig :=
  match server_ip with
  | none => .error (.msg "Could not get server public IP")
  | some ip =>
    let c0 := default_config ip
    let c1 :=
      match file with
      | .absent => c0
      | .parseError => c0
      | .parsed none => c0
      | .parsed (some o) => updateFromFile c0 o
    let c2 : TunnelConfig :=
      { ssh_host := applyEnvStr env.SSH_HOST c1.ssh_host
        ssh_port := applyEnvInt env.SSH_PORT c1.ssh_port
        ssh_user := applyEnvStr env.SSH_USER c1.ssh_user
        ssh_password := applyEnvStr env.SSH_PASSWORD c1.ssh_password
        local_port := applyEnvInt env.LOCAL_PORT c1.local_port
        remote_host := applyEnvStr env.REMOTE_HOST c1.remote_host
        remote_port := applyEnvInt env.REMOTE_PORT c1.remote_port
        timeout := applyEnvInt env.TUNNEL_TIMEOUT c1.timeout }
    if ¬ (1 ≤ c2.ssh_port ∧ c2.ssh_port ≤ 65535) then
      .error (.msg ("Invalid SSH port: " ++ toString c2.ssh_port))
    else if ¬ (1 ≤ c2.local_port ∧ c2.local_port ≤ 65535) then
      .error (.msg ("Invalid local port: " ++ toString c2.local_port))
    else if ¬ (1 ≤ c2.remote_port ∧ c2.remote_port ≤ 65535) then
      .error (.msg ("Invalid remote port: " ++ toString c2.remote_port))
    else
      .ok c2

/-! ### Session lifecycle (src/app.py:43-174) -/

/-- Lifecycle state of an `SSHTunnel` object.  `transport` / `client` record
whether `self.transport` / `self.client` are set (non-`None`);
`acceptorThreads` counts acceptor threads spawned by `start()`
(src/app.py:150-153). -/
structure SessionState where
  running : Bool := false
  transport : Bool := false
  client : Bool := false
  acceptorThreads : Nat := 0
  deriving Repr, DecidableEq

/-- Environment for one `stop()` call: whether `transport.cancel_port_forward`
(src/app.py:166) and `client.close()` (src/app.py:172) raise when invoked. -/
structure StopEnv where
  cancelRaises : Bool := false
  closeRaises : Bool := false
  deriving Repr, DecidableEq

/-- Observable record of one cleanup step of `stop()`: each step either
completes or raises, and a raising step is caught by its own
`except Exception` handler and logged (src/app.py:167-168, 173-174). -/
inductive StopStep where
  | cancelForwardOk : StopStep
  | cancelForwardFailedLogged : StopStep
  | closeClientOk : StopStep
  | closeClientFailedLogged : StopStep
  deriving Repr, DecidableEq

/-- Embedding of `SSHTunnel.stop` (src/app.py:161-174).  It unconditionally
sets `running = False`, then, when `self.transport` is set, calls
`cancel_port_forward` inside `try/except` (failure logged, execution
continues), then, when `self.client` is set, calls `client.close()` inside its
own `try/except`.  Every operation that can raise is wrapped in a handler in
the source, so the embedding returns plainly: `stop` never raises to its
caller.  The returned list records the cleanup steps in execution order. -/
def stop (s : SessionState) (e : StopEnv) : SessionState × List StopStep :=
  let s1 := { s with running := false }
  let steps1 :=
    if s1.transport then
      [if e.cancelRaises then StopStep.cancelForwardFailedLogged else StopStep.cancelForwardOk]
    else []
  let steps2 :=
    if s1.client then
      [if e.closeRaises then StopStep.closeClientFailedLogged else StopStep.closeClientOk]
    else []
  (s1, steps1 ++ steps2)

/-- Environment for one `start()` call: whether `client.connect`
(src/app.py:136-144), `transport.request_port_forward` (src/app.py:147) and
`threading.Thread(...).start()` (src/app.py:150-153) succeed, plus the
environment of the `self.stop()` call made by the `except` branch
(src/app.py:157-159). -/
structure StartEnv where
  connectOk : Bool := true
  forwardOk : Bool := true
  threadStartOk : Bool := true
  stopEnv : StopEnv := {}
  deriving Repr, DecidableEq

/-- Result of a `start()` call: normal return, or the `SSHTunnelException`
re-raised at src/app.py:159 (every failure inside the `try` block is wrapped
into this one exception type). -/
inductive StartOutcome where
  | ok : StartOutcome
  | raisedSSHTunnelException : StartOutcome
  deriving Repr, DecidableEq

/-- Embedding of `SSHTunnel.start` (src/app.py:128-159).  In order:
`self.client = SSHClient()` (sets `client`), `client.connect` (may raise),
`self.transport = client.get_transport()` (sets `transport`),
`request_port_forward` (may raise), `self.running = True`, then the acceptor
thread is spawned (`Thread.start` may raise).  Any raise is caught by the
`except` branch, which calls `self.stop()` and re-raises as
`SSHTunnelException`. -/
def start (s : SessionState) (e : StartEnv) : SessionState × StartOutcome :=
  let s1 := { s with client := true }
  if ¬ e.connectOk then
    ((stop s1 e.stopEnv).1, .raisedSSHTunnelException)
  else
    let s2 := { s1 with transport := true }
    if ¬ e.forwardOk then
      ((stop s2 e.stopEnv).1, .raisedSSHTunnelException)
    else
      let s3 := { s2 with running := true }
      if ¬ e.threadStartOk then
        ((stop s3 e.stopEnv).1, .raisedSSHTunnelException)
      else
        ({ s3 with acceptorThreads := s3.acceptorThreads + 1 }, .ok)

/-! ### Acceptor loop (src/app.py:176-190) -/

/-- Blocking bounds of the two polls.  `acceptTimeoutArg` is the literal
argument passed to `transport.accept(1000)` at src/app.py:180.  The `timeout`
parameter of paramiko's `Transport.accept` is measured in seconds (it is handed
to `threading.Condition.wait`), so one accept poll blocks for up to
`acceptTimeoutArg` seconds. -/
def acceptTimeoutArg : Nat := 1000

/-- Upper bound, in seconds, of one blocking wait in the acceptor loop
(src/app.py:180, under paramiko's seconds-based `Transport.accept` timeout). -/
def acceptPollBoundSeconds : Nat := acceptTimeoutArg

/-- Upper bound, in seconds, of one blocking wait in the relay loop: the
fourth argument of `socket.select([chan, sock], [], [], 1)` at
src/app.py:200. -/
def selectPollBoundSeconds : Nat := 1

/-- Outcome of one `transport.accept(1000)` poll in the acceptor loop:
it returned `None` (timeout), returned a channel (a relay thread is spawned
for it; `id` just numbers the connection), or the body raised
(`runningAtHandler` is the value of `self.running` re-read by the handler at
src/app.py:189). -/
inductive AcceptEv where
  | timeoutNone : AcceptEv
  | chan (id : Nat) : AcceptEv
  | raised (runningAtHandler : Bool) : AcceptEv
  deriving Repr, DecidableEq

/-- One iteration of the acceptor loop: the value of `self.running` read by the
`while` condition (src/app.py:178), and what the iteration body observed. -/
structure AcceptIter where
  running : Bool
  ev : AcceptEv
  deriving Repr, DecidableEq

/-- Observable result of an acceptor-loop run: ids of connections for which a
handler thread was spawned, and how many accept errors were logged. -/
structure AcceptResult where
  spawned : List Nat := []
  errLogs : Nat := 0
  deriving Repr, DecidableEq

/-- Embedding of `SSHTunnel._forward_tunnel` (src/app.py:176-190) over a finite
trace of iterations.  A `None` result makes the loop `continue`; a channel
spawns a handler thread; an exception is logged only when `self.running` is
still true, and the loop continues in every case.  The loop exits when the
`while` condition reads `running = False`. -/
def forward_tunnel : List AcceptIter → AcceptResult
  | [] => {}
  | it :: rest =>
    if it.running then
      match it.ev with
      | .timeoutNone => forward_tunnel rest
      | .chan id =>
        let r := forward_tunnel rest
        { r with spawned := id :: r.spawned }
      | .raised rh =>
        let r := forward_tunnel rest
        { r with errLogs := (if rh then 1 else 0) + r.errLogs }
    else {}

/-! ### Per-connection relay (src/app.py:34-41 and 192-219) -/

/-- The two endpoints of one relay: the forwarded channel `chan` and the
destination socket `sock`. -/
inductive Endpoint where
  | chanEnd : Endpoint
  | sockEnd : Endpoint
  deriving Repr, DecidableEq

/-- Model of `socket.send` / `Channel.send` (src/app.py:206 and 212): the call
transmits a prefix of the buffer and returns the number of bytes accepted
(`sendRet`, with `1 ≤ sendRet ≤ bytes.length` in any real run on a nonempty
buffer).  The source discards this return value, so only the accepted prefix
reaches the peer. -/
def pySend (bytes : List Nat) (sendRet : Nat) : List Nat :=
  bytes.take sendRet

/-- What one ready endpoint's branch observed: `recv` raised, or `recv`
returned `bytes` (empty means EOF, taking the `break` at src/app.py:204/210
before any send) followed by a `send` that either raised (`sendOk = false`) or
returned `sendRet`. -/
inductive PumpEv where
  | recvErr : PumpEv
  | recv (bytes : List Nat) (sendOk : Bool) (sendRet : Nat) : PumpEv
  deriving Repr, DecidableEq

/-- Outcome of one `socket.select([chan, sock], [], [], 1)` call
(src/app.py:200): the call raised, or reported readiness of each endpoint
together with what its branch then observed (the branch event is ignored for
an endpoint that is not ready). -/
inductive SelectEv where
  | selErr : SelectEv
  | ready (chanReady sockReady : Bool) (chanEv sockEv : PumpEv) : SelectEv
  deriving Repr, DecidableEq

/-- One iteration of the relay loop: the value of `self.running` read by the
`while` condition (src/app.py:199) and the iteration's select event. -/
structure RelayIter where
  running : Bool
  ev : SelectEv
  deriving Repr, DecidableEq

/-- How the relay loop ended: `running` read false, the finite trace ran out,
a zero-length read (`break`), an exception (`socket.timeout` or any other,
both caught at src/app.py:214-217), or `sock.connect` itself failed. -/
inductive RelayExit where
  | runningFalse : RelayExit
  | traceEnd : RelayExit
  | halfClose : RelayExit
  | ioError : RelayExit
  | connectFail : RelayExit
  deriving Repr, DecidableEq

/-- Bytes transmitted so far in each direction: `toSock` is what reached the
destination socket, `toChan` what reached the forwarded channel. -/
structure PumpState where
  toSock : List Nat := []
  toChan : List Nat := []
  deriving Repr, DecidableEq

/-- One direction's branch of the loop body (src/app.py:202-206 for `chan`,
src/app.py:208-212 for `sock`): if the endpoint is ready, `recv`; an empty
result breaks out of the whole loop; otherwise the accepted prefix of the
buffer is appended to the opposite direction's stream.  Any raise exits the
loop through the exception handlers. -/
def pumpStep (ready : Bool) (ev : PumpEv) (buf : List Nat) : List Nat × Option RelayExit :=
  if ready then
    match ev with
    | .recvErr => (buf, some .ioError)
    | .recv bytes sendOk sendRet =>
      if bytes = [] then (buf, some .halfClose)
      else if sendOk then (buf ++ pySend bytes sendRet, none)
      else (buf, some .ioError)
  else (buf, none)

/-- One full iteration of the relay loop body (src/app.py:200-212): the `chan`
branch runs first; if it did not exit the loop, the `sock` branch runs. -/
def relayIter (s : PumpState) (ev : SelectEv) : PumpState × Option RelayExit :=
  match ev with
  | .selErr => (s, some .ioError)
  | .ready cr sr cev sev =>
    let c := pumpStep cr cev s.toSock
    let s1 : PumpState := { s with toSock := c.1 }
    match c.2 with
    | some k => (s1, some k)
    | none =>
      let d := pumpStep sr sev s1.toChan
      ({ s1 with toChan := d.1 }, d.2)

/-- The relay loop `while self.running:` (src/app.py:199-212) over a finite
iteration trace. -/
def relayLoop (s : PumpState) : List RelayIter → PumpState × RelayExit
  | [] => (s, .traceEnd)
  | it :: rest =>
    if it.running then
      let r := relayIter s it.ev
      match r.2 with
      | some k => (r.1, k)
      | none => relayLoop r.1 rest
    else (s, .runningFalse)

/-- Observable result of one `_handle_connection` run. `sockTimeoutSet` /
`chanTimeoutSet` record the timeout installed on each endpoint before any read;
`closes` records the close calls in execution order. -/
structure RelayResult where
  toSock : List Nat
  toChan : List Nat
  exit : RelayExit
  sockTimeoutSet : Option Int
  chanTimeoutSet : Option Int
  closes : List Endpoint
  deriving Repr, DecidableEq

/-- Embedding of `SSHTunnel._handle_connection` (src/app.py:192-219).  Inside
`with create_socket() as sock:` (socket creation itself assumed to succeed;
the context manager of src/app.py:34-41 closes `sock` on exit of the block),
the code sets `sock.settimeout(self.config[timeout])`, connects to the
destination (`connectOk` says whether that raised), and runs the relay loop.
All exceptions are caught by the handlers at src/app.py:214-217; the
`finally:` block closes `chan` (src/app.py:218-219) and then the context
manager closes `sock`, on every path.  No `settimeout` is ever called on
`chan`. -/
def handle_connection (cfg : TunnelConfig) (connectOk : Bool) (trace : List RelayIter) :
    RelayResult :=
  if connectOk then
    let r := relayLoop {} trace
    { toSock := r.1.toSock
      toChan := r.1.toChan
      exit := r.2
      sockTimeoutSet := some cfg.timeout
      chanTimeoutSet := none
      closes := [.chanEnd, .sockEnd] }
  else
    { toSock := []
      toChan := []
      exit := .connectFail
      sockTimeoutSet := some cfg.timeout
      chanTimeoutSet := none
      closes := [.chanEnd, .sockEnd] }

/-! ### Theorems for the claims -/

/-- C2: for every relay run — half-close, I/O error, timeout, premature
shutdown, trace exhaustion, or a failed destination connect — both the
accepted channel and the destination socket are closed exactly once: the
`finally:` block closes `chan` and the `create_socket` context manager closes
`sock` on every path, in that order, and no path closes either endpoint twice.
In particular a failed destination connect (`connectOk = false`) leaves the
accepted endpoint closed. -/
theorem C2_relay_closes_both_endpoints_exactly_once (cfg : TunnelConfig) (connectOk : Bool)
    (trace : List RelayIter) :
    (handle_connection cfg connectOk trace).closes = [Endpoint.chanEnd, Endpoint.sockEnd] ∧
    (handle_connection cfg connectOk trace).closes.count Endpoint.chanEnd = 1 ∧
    (handle_connection cfg connectOk trace).closes.count Endpoint.sockEnd = 1 ∧
    (handle_connection cfg false trace).exit = RelayExit.connectFail ∧
    (handle_connection cfg false trace).closes = [Endpoint.chanEnd, Endpoint.sockEnd] := by
  cases connectOk <;>
    refine ⟨?_, ?_, ?_, ?_, ?_⟩ <;>
      simp [handle_connection]

/-- C8 counterexample: the claim says both relay endpoints get an explicit
read/idle timeout before use, but at a concrete accepted connection the
forwarded channel has no timeout installed — only the destination socket
received `settimeout` (src/app.py:196); `chan.settimeout` is never called. -/
theorem C8_counterexample_chan_timeout_missing :
    (handle_connection (default_config "203.0.113.5") true []).chanTimeoutSet = none ∧
    (handle_connection (default_config "203.0.113.5") true []).sockTimeoutSet = some 30 := by
  decide

/-- C8 amended: for every relay, the destination socket's timeout is set from
the session config before any read (even when the subsequent connect fails),
but the forwarded channel never gets an explicit timeout — its reads are
guarded only by the 1-second `select` poll. -/
theorem C8_amended_sock_timeout_only (cfg : TunnelConfig) (connectOk : Bool)
    (trace : List RelayIter) :
    (handle_connection cfg connectOk trace).sockTimeoutSet = some cfg.timeout ∧
    (handle_connection cfg connectOk trace).chanTimeoutSet = none := by
  cases connectOk <;> simp [handle_connection]

/-- C1: the relay does not deliver byte sequences exactly.  At a concrete run
where the channel delivers the chunk `[10, 20]` and then closes, but the
destination socket's `send` accepts only 1 byte (a legal return of
`socket.send`, whose value src/app.py:206 discards), the relay transmits only
`[10]` and terminates, dropping the remaining byte — while the claim requires
`[10, 20]` to arrive in full.  Both endpoints are still closed afterwards. -/
theorem C1_relay_drops_bytes_on_partial_send :
    handle_connection (default_config "203.0.113.5") true
        [{ running := true, ev := .ready true false (.recv [10, 20] true 1) (.recv [] true 0) },
         { running := true, ev := .ready true false (.recv [] true 0) (.recv [] true 0) }] =
      { toSock := [10], toChan := [], exit := .halfClose,
        sockTimeoutSet := some 30, chanTimeoutSet := none,
        closes := [.chanEnd, .sockEnd] } ∧
    ([10] : List Nat) ≠ [10, 20] := by
  decide

/-- C6: a zero-length read from either endpoint immediately terminates the
whole relay, never only one direction: (1) an EOF on the channel exits the
loop at once, whatever the socket branch would have observed and whatever the
rest of the trace holds; (2) symmetrically for an EOF on the socket;
(3) even when the channel delivered data in the same iteration, an EOF on the
socket still ends the whole loop; (4) through `handle_connection`, such a run
ends with exit `halfClose` and the full teardown (both endpoints closed). -/
theorem C6_half_close_terminates_whole_relay :
    (∀ s sr sev sOk sRet rest,
        relayLoop s ({ running := true, ev := .ready true sr (.recv [] sOk sRet) sev } :: rest) =
          (s, .halfClose)) ∧
    (∀ s cev sOk sRet rest,
        relayLoop s ({ running := true, ev := .ready false true cev (.recv [] sOk sRet) } :: rest) =
          (s, .halfClose)) ∧
    (∀ s bytes acc sOk sRet rest, bytes ≠ [] →
        relayLoop s
            ({ running := true, ev := .ready true true (.recv bytes true acc) (.recv [] sOk sRet) } :: rest) =
          ({ s with toSock := s.toSock ++ pySend bytes acc }, .halfClose)) ∧
    (∀ cfg sr sev sOk sRet rest,
        handle_connection cfg true
            ({ running := true, ev := .ready true sr (.recv [] sOk sRet) sev } :: rest) =
          { toSock := [], toChan := [], exit := .halfClose,
            sockTimeoutSet := some cfg.timeout, chanTimeoutSet := none,
            closes := [.chanEnd, .sockEnd] }) := by
  refine ⟨?_, ?_, ?_, ?_⟩
  · intro s sr sev sOk sRet rest
    simp [relayLoop, relayIter, pumpStep]
  · intro s cev sOk sRet rest
    simp [relayLoop, relayIter, pumpStep]
  · intro s bytes acc sOk sRet rest h
    simp [relayLoop, relayIter, pumpStep, h]
  · intro cfg sr sev sOk sRet rest
    simp [handle_connection, relayLoop, relayIter, pumpStep]

/-- C6 witness: a concrete instance of the data-then-EOF case — the channel
delivers `[7]`, the socket reports EOF in the same iteration, and the whole
relay terminates with `[7]` transmitted. -/
theorem C6_half_close_terminates_whole_relay_witness :
    relayLoop {} [{ running := true, ev := .ready true true (.recv [7] true 5) (.recv [] true 0) }] =
      ({ toSock := [7], toChan := [] }, .halfClose) :=
  C6_half_close_terminates_whole_relay.2.2.1 {} [7] 5 true 0 [] (by decide)

/-- C5: the relay readiness poll is bounded by 1 second, and once `running` is
read false the acceptor loop performs no further accept call; but the accept
poll is `transport.accept(1000)` where paramiko's timeout is measured in
seconds, so one acceptor wait is bounded by 1000 seconds — the claim that
every blocking wait is bounded by at most one second fails for the acceptor. -/
theorem C5_accept_poll_exceeds_one_second :
    selectPollBoundSeconds = 1 ∧
    acceptPollBoundSeconds = 1000 ∧
    ¬ (acceptPollBoundSeconds ≤ 1) ∧
    (∀ ev rest, forward_tunnel ({ running := false, ev := ev } :: rest) = {}) := by
  exact ⟨rfl, rfl, by decide, fun ev rest => rfl⟩

/-- C9: in the acceptor loop, an empty poll result (`accept` returning `None`)
is not an error — the iteration contributes nothing and the loop goes on
exactly as without it; a genuine accept exception is logged if and only if
`running` is still true at the handler; and in every case the loop continues:
connections accepted later are still spawned. -/
theorem C9_accept_error_logged_iff_running :
    (∀ rest, forward_tunnel ({ running := true, ev := .timeoutNone } :: rest) = forward_tunnel rest) ∧
    (∀ rest, (forward_tunnel ({ running := true, ev := .raised true } :: rest)).errLogs =
        1 + (forward_tunnel rest).errLogs) ∧
    (∀ rest, (forward_tunnel ({ running := true, ev := .raised false } :: rest)).errLogs =
        (forward_tunnel rest).errLogs) ∧
    (∀ rh rest, (forward_tunnel ({ running := true, ev := .raised rh } :: rest)).spawned =
        (forward_tunnel rest).spawned) := by
  refine ⟨fun rest => rfl, fun rest => rfl, ?_, ?_⟩
  · intro rest; simp [forward_tunnel]
  · intro rh rest; simp [forward_tunnel]

/-- C4: `stop()` is idempotent and total: it leaves the state exactly
`running = false` with everything else untouched; a second call does not
change the state again; both cleanup steps execute whenever their resource is
set, regardless of whether the other step raised (each failure is caught and
logged); and on an Idle session (no transport, no client) `stop()` is a no-op
that performs no cleanup step and never faults. -/
theorem C4_stop_idempotent_best_effort_total (s : SessionState) (e e2 : StopEnv) :
    (stop s e).1 = { s with running := false } ∧
    (stop (stop s e).1 e2).1 = (stop s e).1 ∧
    (stop s e).2.length = (if s.transport then 1 else 0) + (if s.client then 1 else 0) ∧
    stop { running := false, transport := false, client := false,
           acceptorThreads := s.acceptorThreads } e =
      ({ running := false, transport := false, client := false,
         acceptorThreads := s.acceptorThreads }, []) := by
  refine ⟨rfl, rfl, ?_, rfl⟩
  cases ht : s.transport <;> cases hc : s.client <;> simp [stop, ht, hc]

/-- C7: a `start()` call on a fresh session either returns normally with
`running = true` and exactly one acceptor thread spawned, or raises
`SSHTunnelException` having left `running = false` (the `except` branch calls
`stop()`) with no acceptor thread spawned — never one without the other. -/
theorem C7_start_running_iff_acceptor_spawned (e : StartEnv) :
    (start {} e).1.running =
      (match (start {} e).2 with
       | .ok => true
       | .raisedSSHTunnelException => false) ∧
    (start {} e).1.acceptorThreads =
      (match (start {} e).2 with
       | .ok => 1
       | .raisedSSHTunnelException => 0) := by
  cases hc : e.connectOk <;> cases hf : e.forwardOk <;> cases ht : e.threadStartOk <;>
    simp [start, stop, hc, hf, ht]

/-- C3 counterexample: the claim's invariant includes `timeout > 0`, but the
loader validates only the three port fields.  With the environment variable
`TUNNEL_TIMEOUT = "0"`, `_load_configuration` returns a configuration with
`timeout = 0` without raising. -/
theorem C3_counterexample_timeout_zero_accepted :
    load_configuration (some "203.0.113.5") .absent { TUNNEL_TIMEOUT := some "0" } =
      .ok { ssh_host := "203.0.113.5", ssh_port := 22, ssh_user := "ubuntu",
            ssh_password := "password", local_port := 8080, remote_host := "127.0.0.1",
            remote_port := 80, timeout := 0 } ∧
    ¬ ((0 : Int) > 0) := by
  exact ⟨rfl, by decide⟩

/-- C3 amended: every configuration returned without raising has `ssh_port`,
`local_port` and `remote_port` each in `[1, 65535]` (out-of-range ports are
rejected with `SSHTunnelException` before any connection attempt); the
`timeout` field is not validated and accepted configurations may have
`timeout ≤ 0`. -/
theorem C3_amended_ports_validated (ip : Option String) (f : FileLoad) (env : EnvVars)
    (cfg : TunnelConfig) (h : load_configuration ip f env = .ok cfg) :
    (1 ≤ cfg.ssh_port ∧ cfg.ssh_port ≤ 65535) ∧
    (1 ≤ cfg.local_port ∧ cfg.local_port ≤ 65535) ∧
    (1 ≤ cfg.remote_port ∧ cfg.remote_port ≤ 65535) := by
  cases ip with
  | none => exact absurd h (by simp [load_configuration])
  | some ip =>
    simp only [load_configuration] at h
    split_ifs at h with h1 h2 h3
    rw [Except.ok.injEq] at h
    subst h
    exact ⟨h1, h2, h3⟩

/-- C3 witness: the default configuration (no file, no environment overrides)
is accepted and its three ports are in range. -/
theorem C3_amended_ports_validated_witness :
    (1 ≤ (default_config "203.0.113.5").ssh_port ∧
        (default_config "203.0.113.5").ssh_port ≤ 65535) ∧
    (1 ≤ (default_config "203.0.113.5").local_port ∧
        (default_config "203.0.113.5").local_port ≤ 65535) ∧
    (1 ≤ (default_config "203.0.113.5").remote_port ∧
        (default_config "203.0.113.5").remote_port ≤ 65535) :=
  C3_amended_ports_validated (some "203.0.113.5") .absent {}
    (default_config "203.0.113.5") (by rfl)

/-- C10: configuration loading tolerates malformed external inputs: an
existing but unparsable config file is logged and ignored — the result is
identical to having no config file at all, for every environment — and a
non-integer value in any of the four numeric environment variables
(`SSH_PORT`, `LOCAL_PORT`, `REMOTE_PORT`, `TUNNEL_TIMEOUT`) is logged and
ignored — the result is identical to leaving that variable unset.  In both
cases construction proceeds rather than raising for that input. -/
theorem C10_malformed_inputs_tolerated :
    (∀ ip env, load_configuration ip .parseError env = load_configuration ip .absent env) ∧
    (∀ (ip : Option String) (f : FileLoad) (env : EnvVars) (s : String),
        s ≠ "" → pyParseInt s = none →
      (load_configuration ip f { env with SSH_PORT := some s } =
          load_configuration ip f { env with SSH_PORT := none } ∧
        load_configuration ip f { env with LOCAL_PORT := some s } =
          load_configuration ip f { env with LOCAL_PORT := none } ∧
        load_configuration ip f { env with REMOTE_PORT := some s } =
          load_configuration ip f { env with REMOTE_PORT := none } ∧
        load_configuration ip f { env with TUNNEL_TIMEOUT := some s } =
          load_configuration ip f { env with TUNNEL_TIMEOUT := none })) := by
  constructor
  · intro ip env
    cases ip <;> rfl
  · intro ip f env s h1 h2
    cases ip with
    | none => exact ⟨rfl, rfl, rfl, rfl⟩
    | some ip =>
      refine ⟨?_, ?_, ?_, ?_⟩ <;> simp [load_configuration, applyEnvInt, h1, h2]

/-- C10 witness: a concrete unparsable config file is ignored, and the
non-integer environment value `"abc"` for `SSH_PORT` is ignored. -/
theorem C10_malformed_inputs_tolerated_witness :
    load_configuration (some "203.0.113.5") .parseError {} =
      load_configuration (some "203.0.113.5") .absent {} ∧
    load_configuration (some "203.0.113.5") .absent { SSH_PORT := some "abc" } =
      load_configuration (some "203.0.113.5") .absent { SSH_PORT := none } :=
  ⟨C10_malformed_inputs_tolerated.1 (some "203.0.113.5") {},
    (C10_malformed_inputs_tolerated.2 (some "203.0.113.5") .absent {} "abc"
        (by decide) (by decide)).1⟩

end TunnelApp
